import Mathlib

/-!
Verification of the deej HTTP line-ingestion core (src/pkg/deej/http.go).

Shallow embedding of the `HttpIO` transport variant of the deej bridge:
the HTTP command endpoint, the controller state, the per-slider change
detection (`Diff`, modelled from the spec since `SerialIO.handleLine` is
not part of the given sources), the configuration-reload reset task, and
the lifecycle operations `Start` / `Stop` / `close`.

Conventions of the embedding:
* Go channels are modelled by identities (`Nat`) where only their identity
  matters, and by explicit lists of emitted messages where their traffic
  matters.
* The `io.ReadWriteCloser` handle `conn` is `Option Unit`: `none` is Go's
  `nil` interface value; invoking `Close` on it is a runtime panic, which
  the embedding renders as `Option.none` results of `httpClose`.
* `float32` percentages are modelled by exact naturals: every claim under
  study is insensitive to rounding, and the spec's own scenario values are
  integers.
-/

set_option autoImplicit false

namespace DeejHttp

/-- One slider-move notification, from the `SliderMoveEvent` values the
repository fans out to subscribers (immutable pair of slider index and
percent value). -/
structure SliderMoveEvent where
  sliderIndex : Nat
  percentValue : Nat
deriving DecidableEq

/-- The mutable fields of the Go struct `HttpIO` (http.go lines 14-28).
`deej` and `logger` are external collaborators carrying no state relevant
to the claims and are omitted; `stopChannel` is a channel identity;
`conn` is `none` exactly when the Go interface value is `nil`. -/
structure HttpState where
  stopChannel : Nat
  connected : Bool
  conn : Option Unit
  lastKnownNumSliders : Nat
  currentSliderPercentValues : List Nat
  sliderMoveConsumers : List Nat
deriving DecidableEq

/-- Embeds `NewHttpIO` (http.go lines 36-54): `connected` starts `false`, `conn`
starts `nil`, no consumers registered; the tracker fields take Go zero
values (`0` and `nil`). -/
def newHttp : HttpState :=
  { stopChannel := 0
    connected := false
    conn := none
    lastKnownNumSliders := 0
    currentSliderPercentValues := []
    sliderMoveConsumers := [] }

/-! ## The HTTP command endpoint -/

/-- One HTTP response written to the client: status code and body. -/
structure HttpResponse where
  status : Nat
  body : String
deriving DecidableEq

/-- The JSON body gin serializes for the error response in
`handleSerialCommand` (http.go line 63). -/
def invalidDataBody : String := "\x7b\"error\": \"invalid data\"\x7d"

/-- The acknowledgement text of `handleSerialCommand` (http.go line 67):
`fmt.Sprintf("Accepted serial command %s", command)`. -/
def acceptedBody (command : String) : String :=
  "Accepted serial command " ++ command

/-- The `handleSerialCommand` closure of `Start` (http.go lines 60-68).
Input is the result of `c.GetRawData()`; on error the Go code writes the
400 response but does not return, so it falls through: `data` is the `nil`
byte slice, `string(data)` is `""`, the empty command is still sent on
`lineChannel` and the 201 response is still written.  The result pairs the
sequence of responses written with the sequence of commands enqueued on
the line channel. -/
def handleSerialCommand (raw : Except String String) :
    List HttpResponse × List String :=
  let errResponses : List HttpResponse :=
    match raw with
    | Except.error _ => [{ status := 400, body := invalidDataBody }]
    | Except.ok _ => []
  let data : String :=
    match raw with
    | Except.error _ => ""
    | Except.ok d => d
  let command : String := data
  (errResponses ++ [{ status := 201, body := acceptedBody command }],
   [command])

/-! ## The router configured by `Start` -/

/-- A gin router, reduced to the route table it registers: pairs of HTTP
method and path, in registration order. -/
structure Router where
  routes : List (String × String)
deriving DecidableEq

/-- Embeds `gin.Default()` (http.go line 71): a router with no routes. -/
def ginDefault : Router := { routes := [] }

/-- Embeds `router.POST(path, handler)` (http.go line 73): registers one POST
route for `path`. -/
def routerPOST (r : Router) (path : String) : Router :=
  { r with routes := r.routes ++ [("POST", path)] }

/-- The single path registered by `Start`. -/
def serialPath : String := "/serial"

/-- The complete route table `Start` builds before calling `Run`
(http.go lines 71-73). -/
def startRouter : Router := routerPOST ginDefault serialPath

/-- The address passed to `router.Run` (http.go line 74). -/
def startRunAddr : String := "localhost:6332"

/-! ## Line parsing and change detection

`HttpIO.handleLine` delegates to `SerialIO.handleLine`, whose source is
not part of the given files; the parser and diff below are therefore
modelled from the spec (sections 4.2 and 6). -/

/-- Modelled from the spec: the line terminator check of the parser used
by `SerialIO.handleLine` (spec section 6: a line is "terminated by the
transport's line terminator before being handed to the parser").  Strips
a trailing CR-LF, failing when it is absent. -/
def stripTerminator (l : List Char) : Option (List Char) :=
  match l.reverse with
  | '\n' :: '\r' :: rest => some rest.reverse
  | _ => none

/-- Splits a character list on the fixed field separator of the line
format (spec section 6: "fields delimited by a fixed separator"). -/
def splitFields : List Char → List (List Char)
  | [] => [[]]
  | c :: rest =>
    let r := splitFields rest
    if c = '|' then [] :: r
    else
      match r with
      | [] => [[c]]
      | f :: fs => (c :: f) :: fs

/-- Numeric value of a decimal digit character, `none` on a non-digit. -/
def digitVal (c : Char) : Option Nat :=
  if c.isDigit then some (c.toNat - 48) else none

/-- Accumulating decimal parser over a digit list. -/
def parseDigitsAux : List Char → Nat → Option Nat
  | [], acc => some acc
  | c :: rest, acc =>
    match digitVal c with
    | none => none
    | some d => parseDigitsAux rest (acc * 10 + d)

/-- Modelled from the spec: one numeric field of a line (spec section 6:
"each field a non-negative number"); empty or non-numeric fields fail. -/
def parseField (cs : List Char) : Option Nat :=
  match cs with
  | [] => none
  | _ :: _ => parseDigitsAux cs 0

/-- Modelled from the spec: the line parser of `SliderStateTracker.Diff`
(spec section 4.2): the terminated line is split into fields, each parsed
as a non-negative number; a missing terminator, an empty line or a
non-numeric field is a `MalformedLineError`, rendered as `none`. -/
def parseLine (line : String) : Option (List Nat) :=
  match stripTerminator line.toList with
  | none => none
  | some body => (splitFields body).mapM parseField

/-- Absolute difference of two naturals, the "delta" of spec 4.2. -/
def natDelta (a b : Nat) : Nat := max a b - min a b

/-- The per-slider state owned by `SliderStateTracker` / `SerialIO`:
last-observed slider count and stored percentages. -/
structure TrackerState where
  lastKnownNumSliders : Nat
  currentSliderPercentValues : List Nat
deriving DecidableEq

/-- Modelled from the spec: `SliderStateTracker.Diff` (spec section 4.2).
Parse the line (`none` on `MalformedLineError`, prior state kept by the
caller).  If the field count differs from the recorded count, every
slider is treated as changed; otherwise an index is changed when its
delta against the stored value exceeds the tolerance.  Stored values are
updated to the latest raw readings regardless; events are in ascending
index order. -/
def Diff (tol : Nat) (st : TrackerState) (line : String) :
    Option (TrackerState × List SliderMoveEvent) :=
  match parseLine line with
  | none => none
  | some fields =>
    let n := fields.length
    let newState : TrackerState :=
      { lastKnownNumSliders := n, currentSliderPercentValues := fields }
    if n ≠ st.lastKnownNumSliders then
      some (newState,
        fields.enum.map (fun p => { sliderIndex := p.1, percentValue := p.2 }))
    else
      some (newState,
        (fields.enum.filter (fun p =>
          match st.currentSliderPercentValues.get? p.1 with
          | some old => decide (tol < natDelta old p.2)
          | none => true)).map
          (fun p => { sliderIndex := p.1, percentValue := p.2 }))

/-- Embeds `handleLine` of `HttpIO` (http.go lines 144-154).  The Go code builds
a fresh `SerialIO` struct literal copying only `deej`, `logger`,
`stopChannel`, `connected`, `conn` and `sliderMoveConsumers` from the
`HttpIO`; the tracker fields `lastKnownNumSliders` and
`currentSliderPercentValues` are left at their Go zero values (`0` and
`nil`), the line is suffixed with CR-LF, and the `SerialIO` value is
discarded after the call, so no tracker state is read from or written
back to the `HttpIO`.  The result pairs the (unchanged) controller state
with the events published to the consumers. -/
def httpHandleLine (tol : Nat) (hio : HttpState) (line : String) :
    HttpState × List SliderMoveEvent :=
  let sio : TrackerState :=
    { lastKnownNumSliders := 0, currentSliderPercentValues := [] }
  match Diff tol sio (line ++ "\r\n") with
  | none => (hio, [])
  | some p => (hio, p.2)

/-! ## Lifecycle operations -/

/-- Embeds `Stop` (http.go lines 95-102): when `connected`, send `true` on the
stop channel; otherwise only log.  The result pairs the state with the
list of signals sent on the stop channel. -/
def httpStop (s : HttpState) : HttpState × List Bool :=
  if s.connected then (s, [true]) else (s, [])

/-- Embeds `close` (http.go lines 133-142): `hio.conn.Close()` is invoked on the
stored handle; when `conn` is the `nil` interface value this is a Go
runtime panic, rendered as `none`.  Otherwise the handle is closed (a
close error is only logged), `conn` is reset to `nil` and `connected` to
`false`. -/
def httpClose (s : HttpState) : Option HttpState :=
  match s.conn with
  | none => none
  | some _ => some { s with conn := none, connected := false }

/-- Embeds `SubscribeToSliderMoveEvents` (http.go lines 106-111): appends a
fresh consumer channel (modelled by its identity) and returns it. -/
def subscribeToSliderMoveEvents (s : HttpState) : HttpState × Nat :=
  let ch := s.sliderMoveConsumers.length
  ({ s with sliderMoveConsumers := s.sliderMoveConsumers ++ [ch] }, ch)

/-! ## The configuration-reload coordinator -/

/-- The fixed delay of `setupOnConfigReload` (http.go line 116):
`50 * time.Millisecond`, in milliseconds. -/
def stopDelay : Nat := 50

/-- One delayed fire-and-forget task spawned by the reload goroutine:
its timer duration and the state update it performs when it fires. -/
structure DelayedTask where
  delay : Nat
  effect : HttpState → HttpState

/-- The body of the delayed task of `setupOnConfigReload` (http.go line
127): `hio.lastKnownNumSliders = 0` and nothing else. -/
def reloadResetEffect (s : HttpState) : HttpState :=
  { s with lastKnownNumSliders := 0 }

/-- Embeds `setupOnConfigReload` (http.go lines 113-131): for every notification
received on the config-reload channel, one independent goroutine is
spawned that waits `stopDelay` and then clears `lastKnownNumSliders`;
no task is cancelled or merged with another.  The function maps the
sequence of notifications received to the sequence of tasks spawned. -/
def setupOnConfigReload (notifications : List Unit) : List DelayedTask :=
  notifications.map (fun _ => { delay := stopDelay, effect := reloadResetEffect })

/-! ## Operation sequences over the controller state -/

/-- The operations of `HttpIO` that can touch its state: `Start`, `Stop`,
`SubscribeToSliderMoveEvents`, `handleLine`, one firing of the delayed
reload-reset task, and `close`. -/
inductive HttpOp where
  | startOp
  | stopOp
  | subscribeOp
  | handleLineOp (line : String)
  | reloadResetOp
  | closeOp
deriving DecidableEq

/-- One operation applied to the controller state, paired with the
signals the operation sends on the stop channel.  `Start` (http.go lines
57-92) allocates a local line channel and spawns goroutines but assigns
no field of the struct.  In the `close` case with a `nil` handle the Go
process panics before any field assignment executes, so the state is
returned untouched there. -/
def httpStep (tol : Nat) (s : HttpState) : HttpOp → HttpState × List Bool
  | HttpOp.startOp => (s, [])
  | HttpOp.stopOp => httpStop s
  | HttpOp.subscribeOp => ((subscribeToSliderMoveEvents s).1, [])
  | HttpOp.handleLineOp line => ((httpHandleLine tol s line).1, [])
  | HttpOp.reloadResetOp => (reloadResetEffect s, [])
  | HttpOp.closeOp =>
    match httpClose s with
    | none => (s, [])
    | some h => (h, [])

/-- Runs a sequence of operations from a state. -/
def httpRun (tol : Nat) (s : HttpState) : List HttpOp → HttpState
  | [] => s
  | op :: ops => httpRun tol (httpStep tol s op).1 ops

/-! ## Lifecycle traces: Start / Stop / transport failure -/

/-- The external lifecycle events of the bridge controller: a `Start`
call, a `Stop` call, and a transport-level failure (`router.Run`
returning an error, http.go lines 74-76, which invokes `hio.Stop()`). -/
inductive LifeEvent where
  | start
  | stop
  | transportFailure
deriving DecidableEq

/-- Controller state together with the number of times the transport
teardown (`hio.conn.Close()` followed by the field resets of `close`)
has executed. -/
structure LifecycleState where
  hio : HttpState
  closeCount : Nat
deriving DecidableEq

/-- The effect of a `Stop` call: when not connected nothing happens; when
connected a signal is sent, the select loop receives it and runs `close`
(http.go lines 83-84), whose `nil`-handle panic is rendered `none`. -/
def stopAndMaybeClose (s : LifecycleState) : Option LifecycleState :=
  match (httpStop s.hio).2 with
  | [] => some s
  | _ :: _ =>
    match httpClose s.hio with
    | none => none
    | some h => some { hio := h, closeCount := s.closeCount + 1 }

/-- One lifecycle event.  `Start` assigns no field of the struct; a
transport failure calls `hio.Stop()` and so behaves like `Stop`. -/
def lifecycleStep (s : LifecycleState) : LifeEvent → Option LifecycleState
  | LifeEvent.start => some s
  | LifeEvent.stop => stopAndMaybeClose s
  | LifeEvent.transportFailure => stopAndMaybeClose s

/-- The lifecycle state right after `NewHttpIO`. -/
def initLifecycle : LifecycleState := { hio := newHttp, closeCount := 0 }

/-- Runs a lifecycle trace from a state; `none` is a crash. -/
def runLifecycleFrom (s : LifecycleState) :
    List LifeEvent → Option LifecycleState
  | [] => some s
  | e :: evs =>
    match lifecycleStep s e with
    | none => none
    | some t => runLifecycleFrom t evs

/-- Runs a lifecycle trace from the initial state. -/
def runLifecycle (evs : List LifeEvent) : Option LifecycleState :=
  runLifecycleFrom initLifecycle evs

/-! ## Concrete inputs reused by the theorems -/

/-- A concrete error message for a failed `c.GetRawData()` call. -/
def readFailureMsg : String := "read failure"

/-- The result of a body read that failed. -/
def bodyReadError : Except String String := Except.error readFailureMsg

/-- The empty command: `string(data)` for the `nil` byte slice. -/
def emptyCommand : String := ""

/-- The sample line of spec section 8. -/
def sampleLine : String := "100|50|0"

/-! ## Helper lemmas -/

/-- The controller state component of `httpHandleLine` is always the
input state: no field of the `HttpIO` is written by `handleLine`. -/
theorem httpHandleLine_fst (tol : Nat) (s : HttpState) (line : String) :
    (httpHandleLine tol s line).1 = s := by
  unfold httpHandleLine
  cases h : Diff tol
      { lastKnownNumSliders := 0, currentSliderPercentValues := [] }
      (line ++ "\r\n") <;> simp [h]

/-- No operation of `HttpIO` turns `connected` on. -/
theorem httpStep_connected (tol : Nat) (s : HttpState) (op : HttpOp)
    (h : s.connected = false) : ((httpStep tol s op).1).connected = false := by
  cases op with
  | startOp => exact h
  | stopOp => simp [httpStep, httpStop, h]
  | subscribeOp => simpa [httpStep, subscribeToSliderMoveEvents] using h
  | handleLineOp line => simpa [httpStep, httpHandleLine_fst] using h
  | reloadResetOp => simpa [httpStep, reloadResetEffect] using h
  | closeOp => cases hc : s.conn <;> simp [httpStep, httpClose, hc, h]

/-- Running any operation sequence from a not-connected state keeps the
state not connected. -/
theorem httpRun_connected (tol : Nat) (ops : List HttpOp) (s : HttpState)
    (h : s.connected = false) : (httpRun tol s ops).connected = false := by
  induction ops generalizing s with
  | nil => exact h
  | cons op ops ih => exact ih _ (httpStep_connected tol s op h)

/-- While not connected, every lifecycle event leaves the lifecycle state
untouched: `Stop` and transport failures take the logging branch and the
teardown path is never entered. -/
theorem lifecycleStep_not_connected (s : LifecycleState)
    (h : s.hio.connected = false) (e : LifeEvent) :
    lifecycleStep s e = some s := by
  cases e <;> simp [lifecycleStep, stopAndMaybeClose, httpStop, h]

/-- While not connected, a whole lifecycle trace leaves the state
untouched and never crashes. -/
theorem runLifecycleFrom_not_connected (evs : List LifeEvent)
    (s : LifecycleState) (h : s.hio.connected = false) :
    runLifecycleFrom s evs = some s := by
  induction evs with
  | nil => rfl
  | cons e evs ih => simp [runLifecycleFrom, lifecycleStep_not_connected s h e, ih]

/-! ## Claim theorems -/

/-- C1: the claim says an unreadable POST body yields only the 400
response with body `{"error": "invalid data"}`, with no command enqueued
and no 201 written.  The code does write that 400 response, but the
handler lacks a `return` after it: it still enqueues the empty command on
the line channel and still writes a 201 response.  This theorem
evaluates the handler at the failing input and exhibits both extra
effects. -/
theorem handleSerialCommand_unreadable_body_still_enqueues :
    handleSerialCommand bodyReadError =
      ([{ status := 400, body := invalidDataBody },
        { status := 201, body := acceptedBody emptyCommand }],
       [emptyCommand]) := rfl

/-- C2 counterexample: "the transport handle is torn down exactly once"
fails.  On the concrete trace Start-then-Stop the teardown path never
runs: the teardown count after the trace is 0, not 1 (the handle is never
created, `connected` stays false, and `Stop` takes the logging branch). -/
theorem lifecycle_stop_without_single_teardown :
    (runLifecycle [LifeEvent.start, LifeEvent.stop]).map
        LifecycleState.closeCount = some 0 ∧
    (runLifecycle [LifeEvent.start, LifeEvent.stop]).map
        LifecycleState.closeCount ≠ some 1 := by
  exact ⟨rfl, by decide⟩

/-- C2 amended: for every sequence of Start, Stop and transport-failure
events, no crash occurs and the controller stays in the initial
not-connected state from which `Start()` can be invoked again; but the
transport handle is torn down zero times, not exactly once — the
teardown path `close` is never entered because `connected` is invariantly
false. -/
theorem lifecycle_no_crash_and_no_teardown (evs : List LifeEvent) :
    runLifecycle evs = some initLifecycle ∧
    initLifecycle.closeCount = 0 ∧
    initLifecycle.hio.connected = false :=
  ⟨runLifecycleFrom_not_connected evs initLifecycle rfl, rfl, rfl⟩

/-- C3: the claim says per-slider state persists across processed lines,
so the second of two consecutive identical lines emits zero events.  In
the code `handleLine` builds a fresh `SerialIO` whose tracker fields are
Go zero values and never writes tracker state back to the `HttpIO`: the
first part shows the controller state after a processed line equals the
initial state, and the second part shows the second identical line
`"100|50|0"` again emits one event per slider (three events, the full
resend), not zero. -/
theorem handleLine_drops_tracker_state :
    (httpHandleLine 0 newHttp sampleLine).1 = newHttp ∧
    (httpHandleLine 0 (httpHandleLine 0 newHttp sampleLine).1
        sampleLine).2 =
      [{ sliderIndex := 0, percentValue := 100 },
       { sliderIndex := 1, percentValue := 50 },
       { sliderIndex := 2, percentValue := 0 }] := by
  exact ⟨rfl, by decide⟩

/-- C4: every configuration-reload notification spawns its own
independent delayed task — one task per notification, none dropped or
merged — each with the fixed 50ms delay, and each setting
`lastKnownNumSliders` to zero when it fires. -/
theorem setupOnConfigReload_one_task_per_notification
    (notifications : List Unit) :
    setupOnConfigReload notifications =
      List.replicate notifications.length
        { delay := stopDelay, effect := reloadResetEffect } ∧
    stopDelay = 50 ∧
    ∀ s : HttpState, (reloadResetEffect s).lastKnownNumSliders = 0 := by
  refine ⟨?_, rfl, fun s => rfl⟩
  induction notifications with
  | nil => rfl
  | cons n ns ih =>
    simp only [setupOnConfigReload, List.map_cons, List.length_cons,
      List.replicate_succ, List.cons.injEq, true_and]
    simpa only [setupOnConfigReload] using ih

/-- C6: for every successfully read POST body, the full unprocessed body
is forwarded as exactly one command on the line channel, and the handler
writes exactly one response, 201 Created, whose acknowledgement echoes
the accepted command. -/
theorem handleSerialCommand_ok_enqueues_and_acks (data : String) :
    handleSerialCommand (Except.ok data) =
      ([{ status := 201, body := acceptedBody data }], [data]) := rfl

/-- C7: calling `Stop` while not connected is a no-op: the state is
returned unchanged and no signal is sent on the stop channel. -/
theorem stop_not_connected_noop (s : HttpState)
    (h : s.connected = false) : httpStop s = (s, []) := by
  simp [httpStop, h]

/-- C7 witness: the initial state is not connected, and `Stop` on it
changes nothing and sends nothing. -/
theorem stop_not_connected_noop_witness :
    newHttp.connected = false ∧ httpStop newHttp = (newHttp, []) :=
  ⟨rfl, stop_not_connected_noop newHttp rfl⟩

/-- C8: the listener configured by `Start` registers exactly one route,
POST /serial, and runs on the fixed local address localhost:6332. -/
theorem start_registers_single_route_on_fixed_addr :
    startRouter.routes = [("POST", serialPath)] ∧
    serialPath = "/serial" ∧
    startRunAddr = "localhost:6332" :=
  ⟨rfl, rfl, rfl⟩

/-- C9: `connected` is initialized to false and no sequence of `HttpIO`
operations (Start, Stop, Subscribe, handleLine, the reload reset, close)
ever sets it to true; consequently `Stop` on any reachable state takes
the not-connected branch and sends nothing on the stop channel. -/
theorem connected_always_false_stop_never_signals (tol : Nat)
    (ops : List HttpOp) :
    (httpRun tol newHttp ops).connected = false ∧
    httpStop (httpRun tol newHttp ops) = (httpRun tol newHttp ops, []) := by
  have h := httpRun_connected tol ops newHttp rfl
  exact ⟨h, by simp [httpStop, h]⟩

/-- C10: the delayed reload-reset task writes only `lastKnownNumSliders`;
the stored percentages, the subscriber registry, the connection state and
the channel identity are unchanged. -/
theorem reload_reset_writes_only_slider_count (s : HttpState) :
    (reloadResetEffect s).lastKnownNumSliders = 0 ∧
    (reloadResetEffect s).currentSliderPercentValues =
      s.currentSliderPercentValues ∧
    (reloadResetEffect s).sliderMoveConsumers = s.sliderMoveConsumers ∧
    (reloadResetEffect s).connected = s.connected ∧
    (reloadResetEffect s).conn = s.conn ∧
    (reloadResetEffect s).stopChannel = s.stopChannel :=
  ⟨rfl, rfl, rfl, rfl, rfl, rfl⟩

end DeejHttp
